import Mathlib

/-!
Shallow embedding of the capability-mediation core of the webview-app
repository: `src/utils/permissions.ts` (the capability resolver utilities)
and the `WebViewScreen` component of `src/components/HomeScreen.tsx`
(bridge message handler, grant state, back-navigation handler, injected
interception shim).  Async functions returning promises that may reject are
embedded as functions into `Except JSError`; an `await` is a match that
propagates the `error` case.  Side effects (alerts shown, log lines,
resolver requests issued) are returned as explicit data.
-/

namespace WebViewApp

/-- `Platform.OS` restricted to the two branches the code distinguishes. -/
inductive Platform
  | ios
  | android
  deriving DecidableEq, Repr

/-- `PermissionType = 'camera' | 'microphone'` from permissions.ts. -/
inductive PermissionType
  | camera
  | microphone
  deriving DecidableEq, Repr

/-- The string a `PermissionType` value interpolates to in a template. -/
def PermissionType.name : PermissionType → String
  | .camera => "camera"
  | .microphone => "microphone"

/-- The platform permission constants the code can mention:
`PERMISSIONS.IOS.CAMERA`, `PERMISSIONS.IOS.MICROPHONE`,
`PERMISSIONS.ANDROID.CAMERA`, `PERMISSIONS.ANDROID.RECORD_AUDIO`. -/
inductive Permission
  | iosCamera
  | iosMicrophone
  | androidCamera
  | androidRecordAudio
  deriving DecidableEq, Repr

/-- The `PermissionStatus` domain of react-native-permissions (`RESULTS`). -/
inductive PermissionStatus
  | unavailable
  | denied
  | limited
  | granted
  | blocked
  deriving DecidableEq, Repr

/-- A JavaScript runtime error / promise rejection value. -/
abbrev JSError := String

/-- The OS permission subsystem: `check` or `request` of
react-native-permissions, as an environment parameter.  A call either
resolves to a status or rejects with an error. -/
abbrev OSEnv := Permission → Except JSError PermissionStatus

/-- permissions.ts `getPermissionConstant`. -/
def getPermissionConstant (os : Platform) (t : PermissionType) : Permission :=
  if os = Platform.ios then
    if t = PermissionType.camera then Permission.iosCamera
    else Permission.iosMicrophone
  else
    if t = PermissionType.camera then Permission.androidCamera
    else Permission.androidRecordAudio

/-- permissions.ts `PermissionResult`. -/
structure PermissionResult where
  granted : Bool
  status : PermissionStatus
  deriving DecidableEq, Repr

/-- permissions.ts `checkPermission`: `await check(permission)` then build
the result.  A rejection of the OS call propagates. -/
def checkPermission (os : Platform) (osCheck : OSEnv) (t : PermissionType) :
    Except JSError PermissionResult :=
  match osCheck (getPermissionConstant os t) with
  | Except.error e => Except.error e
  | Except.ok status =>
      Except.ok { granted := status == PermissionStatus.granted, status := status }

/-- permissions.ts `requestPermission`: `await request(permission)` then
build the result.  A rejection of the OS call propagates. -/
def requestPermission (os : Platform) (osRequest : OSEnv) (t : PermissionType) :
    Except JSError PermissionResult :=
  match osRequest (getPermissionConstant os t) with
  | Except.error e => Except.error e
  | Except.ok status =>
      Except.ok { granted := status == PermissionStatus.granted, status := status }

/-- Return type of permissions.ts `checkAllPermissions`. -/
structure CheckAllResult where
  camera : PermissionResult
  microphone : PermissionResult
  deriving DecidableEq, Repr

/-- permissions.ts `checkAllPermissions`: `Promise.all` of the two checks;
a rejection of either propagates. -/
def checkAllPermissions (os : Platform) (osCheck : OSEnv) :
    Except JSError CheckAllResult :=
  match checkPermission os osCheck PermissionType.camera,
        checkPermission os osCheck PermissionType.microphone with
  | Except.ok camera, Except.ok microphone =>
      Except.ok { camera := camera, microphone := microphone }
  | Except.error e, _ => Except.error e
  | _, Except.error e => Except.error e

/-- Return type of permissions.ts `requestAllPermissions`. -/
structure AllPermissionsResult where
  camera : PermissionResult
  microphone : PermissionResult
  allGranted : Bool
  deriving DecidableEq, Repr

/-- permissions.ts `requestAllPermissions`: `Promise.all` of the two
requests, then `allGranted := camera.granted && microphone.granted`. -/
def requestAllPermissions (os : Platform) (osRequest : OSEnv) :
    Except JSError AllPermissionsResult :=
  match requestPermission os osRequest PermissionType.camera,
        requestPermission os osRequest PermissionType.microphone with
  | Except.ok camera, Except.ok microphone =>
      Except.ok { camera := camera, microphone := microphone,
                  allGranted := camera.granted && microphone.granted }
  | Except.error e, _ => Except.error e
  | _, Except.error e => Except.error e

/-- What pressing a button of a native alert does in this code base. -/
inductive ButtonAction
  | dismiss
  | openSettings
  deriving DecidableEq, Repr

/-- One button of an `Alert.alert` call. -/
structure AlertButton where
  text : String
  action : ButtonAction
  deriving DecidableEq, Repr

/-- A native alert shown by `Alert.alert`, as data. -/
structure AlertSpec where
  title : String
  message : String
  buttons : List AlertButton
  deriving DecidableEq, Repr

/-- permissions.ts `showPermissionDeniedAlert`: a two-button alert whose
second button opens OS settings. -/
def showPermissionDeniedAlert (permissionType : PermissionType) : AlertSpec :=
  let permissionName :=
    if permissionType = PermissionType.camera then "Camera" else "Microphone"
  { title := permissionName ++ " Permission Required",
    message := permissionName ++
      " access is required for this feature. Would you like to open settings to enable it?",
    buttons :=
      [ { text := "Cancel", action := ButtonAction.dismiss },
        { text := "Open Settings", action := ButtonAction.openSettings } ] }

/-- Outcome of permissions.ts `handlePermissionResult`: the alerts shown
and the returned boolean. -/
structure HandleResultOutcome where
  alerts : List AlertSpec
  value : Bool
  deriving DecidableEq, Repr

/-- permissions.ts `handlePermissionResult`: requests, then shows the
denied-alert only when the status is `blocked`. -/
def handlePermissionResult (os : Platform) (osRequest : OSEnv) (t : PermissionType) :
    Except JSError HandleResultOutcome :=
  match requestPermission os osRequest t with
  | Except.error e => Except.error e
  | Except.ok result =>
      if !result.granted then
        if result.status == PermissionStatus.blocked then
          Except.ok { alerts := [showPermissionDeniedAlert t], value := false }
        else
          Except.ok { alerts := [], value := false }
      else
        Except.ok { alerts := [], value := true }

/-- The `permissionsGranted` React state of `WebViewScreen`: a JavaScript
object, embedded as an ordered key-value list so that the presence of keys
is a real property. -/
abbrev GrantStore := List (PermissionType × Bool)

/-- JavaScript object spread update `\x7b...prev, [k]: v\x7d`: every existing
key keeps its position, `k` gets value `v` (replaced in place when present,
appended when absent). -/
def objectSpreadSet (s : GrantStore) (k : PermissionType) (v : Bool) : GrantStore :=
  if s.any (fun p => p.1 == k) then
    s.map (fun p => if p.1 == k then (k, v) else p)
  else
    s ++ [(k, v)]

namespace WebViewScreen

/-- Initial `permissionsGranted` state: `\x7bcamera: false, microphone: false\x7d`. -/
def initialPermissionsGranted : GrantStore :=
  [(PermissionType.camera, false), (PermissionType.microphone, false)]

/-- The inline platform branching of `WebViewScreen.requestPermission`
(the component duplicates permissions.ts `getPermissionConstant`). -/
def permissionFor (os : Platform) (permissionType : PermissionType) : Permission :=
  if os = Platform.ios then
    if permissionType = PermissionType.camera then Permission.iosCamera
    else Permission.iosMicrophone
  else
    if permissionType = PermissionType.camera then Permission.androidCamera
    else Permission.androidRecordAudio

/-- Outcome of the screen-local `requestPermission`: the updated
`permissionsGranted` state, the returned boolean, the resolver requests it
issued, and the console error log lines. -/
structure RequestOutcome where
  store : GrantStore
  granted : Bool
  requested : List PermissionType
  logs : List String
  deriving DecidableEq, Repr

/-- `WebViewScreen.requestPermission`: awaits `request(permission)` inside
try/catch.  On success it writes `granted` into the state via object spread
and returns `granted`; on a rejection it logs and returns `false`, leaving
the state untouched.  It is total: no error escapes. -/
def requestPermission (os : Platform) (osRequest : OSEnv) (t : PermissionType)
    (store : GrantStore) : RequestOutcome :=
  let permission := permissionFor os t
  match osRequest permission with
  | Except.ok result =>
      let granted := result == PermissionStatus.granted
      { store := objectSpreadSet store t granted, granted := granted,
        requested := [t], logs := [] }
  | Except.error e =>
      { store := store, granted := false, requested := [t],
        logs := ["Error requesting " ++ t.name ++ " permission: " ++ e] }

/-- Outcome of the screen-local `requestAllPermissions`: its returned
boolean plus the state and effects. -/
structure AllRequestOutcome where
  store : GrantStore
  value : Bool
  requested : List PermissionType
  alerts : List AlertSpec
  logs : List String
  deriving DecidableEq, Repr

/-- `WebViewScreen.requestAllPermissions`: awaits the camera request, then
the microphone request, shows a one-button notice when either is not
granted, and returns the conjunction. -/
def requestAllPermissions (os : Platform) (osRequest : OSEnv)
    (store : GrantStore) : AllRequestOutcome :=
  let camOut := requestPermission os osRequest PermissionType.camera store
  let micOut := requestPermission os osRequest PermissionType.microphone camOut.store
  let cameraGranted := camOut.granted
  let microphoneGranted := micOut.granted
  let alerts :=
    if !cameraGranted || !microphoneGranted then
      [{ title := "Permissions Required",
         message := "Camera and microphone permissions are required for this feature. Please enable them in your device settings.",
         buttons := [{ text := "OK", action := ButtonAction.dismiss }] }]
    else []
  { store := micOut.store, value := cameraGranted && microphoneGranted,
    requested := camOut.requested ++ micOut.requested,
    alerts := alerts, logs := camOut.logs ++ micOut.logs }

/-- The result of `JSON.parse` on an inbound WebView message: either the
parse threw, or it produced a value whose `type` and `permission` fields
are each a string or absent. -/
inductive InboundData
  | parseError
  | parsed (type : Option String) (permission : Option String)
  deriving DecidableEq, Repr

/-- Outcome of `handlePermissionRequest` (the function itself returns
nothing; its state update and effects are the observable outcome). -/
structure HandlerOutcome where
  store : GrantStore
  requested : List PermissionType
  alerts : List AlertSpec
  logs : List String
  deriving DecidableEq, Repr

/-- `WebViewScreen.handlePermissionRequest`: parses the message inside
try/catch (a parse failure is swallowed), then dispatches on `type` and
`permission`; anything non-conforming falls through with no effect. -/
def handlePermissionRequest (os : Platform) (osRequest : OSEnv)
    (msg : InboundData) (store : GrantStore) : HandlerOutcome :=
  match msg with
  | InboundData.parseError =>
      { store := store, requested := [], alerts := [], logs := [] }
  | InboundData.parsed type permission =>
      if type == some "PERMISSION_REQUEST" then
        if permission == some "camera" then
          let o := requestPermission os osRequest PermissionType.camera store
          { store := o.store, requested := o.requested, alerts := [], logs := o.logs }
        else if permission == some "microphone" then
          let o := requestPermission os osRequest PermissionType.microphone store
          { store := o.store, requested := o.requested, alerts := [], logs := o.logs }
        else if permission == some "all" then
          let o := requestAllPermissions os osRequest store
          { store := o.store, requested := o.requested, alerts := o.alerts, logs := o.logs }
        else
          { store := store, requested := [], alerts := [], logs := [] }
      else
        { store := store, requested := [], alerts := [], logs := [] }

/-- What a back-press handler invocation can do. -/
inductive BackEffect
  | contentGoBack
  | hostExit
  deriving DecidableEq, Repr

/-- The `onBackPress` callback registered on the hardware back event: if
`canGoBack` and the WebView ref is non-null, step the WebView history;
otherwise call `onGoBack` (exit the viewer).  Both branches return `true`
(the event is consumed). -/
def onBackPress (canGoBack : Bool) (webViewRefPresent : Bool) :
    List BackEffect × Bool :=
  if canGoBack && webViewRefPresent then
    ([BackEffect.contentGoBack], true)
  else
    ([BackEffect.hostExit], true)

/-- A `getUserMedia` constraints object, reduced to whether its `video` and
`audio` members are truthy. -/
structure MediaConstraints where
  video : Bool
  audio : Bool
  deriving DecidableEq, Repr

/-- A message posted over `window.ReactNativeWebView.postMessage`
(already JSON-decoded). -/
structure BridgeMessage where
  type : String
  permission : String
  deriving DecidableEq, Repr

/-- The injected-JavaScript wrapper around
`navigator.mediaDevices.getUserMedia`: posts a camera message when
`constraints.video` is truthy, a microphone message when
`constraints.audio` is truthy, then calls the original entry point with
the same constraints and returns its result.  The original call is
represented by the function parameter; no host response is consulted. -/
def getUserMedia {α : Type} (originalGetUserMedia : MediaConstraints → α)
    (constraints : MediaConstraints) : List BridgeMessage × α :=
  let videoMsgs :=
    if constraints.video then
      [{ type := "PERMISSION_REQUEST", permission := "camera" : BridgeMessage }]
    else []
  let audioMsgs :=
    if constraints.audio then
      [{ type := "PERMISSION_REQUEST", permission := "microphone" : BridgeMessage }]
    else []
  (videoMsgs ++ audioMsgs, originalGetUserMedia constraints)

/-- The `permissionsGranted` states reachable during the lifetime of a
mounted `WebViewScreen`: the mount-time initial state, plus everything the
bridge message handler (the only writer) can produce from a reachable
state. -/
inductive ReachableStore : GrantStore → Prop
  | mount : ReachableStore initialPermissionsGranted
  | handle (store : GrantStore) (os : Platform) (osRequest : OSEnv)
      (msg : InboundData) : ReachableStore store →
      ReachableStore (handlePermissionRequest os osRequest msg store).store

end WebViewScreen

/-- The wire-format conformance condition of the inbound message channel:
parsing succeeded, `type` is `"PERMISSION_REQUEST"` and `permission` is
one of the three recognized values.  Used to state what a malformed
message is. -/
def wellFormedMessage : WebViewScreen.InboundData → Bool
  | WebViewScreen.InboundData.parseError => false
  | WebViewScreen.InboundData.parsed type permission =>
      type == some "PERMISSION_REQUEST" &&
        (permission == some "camera" || permission == some "microphone" ||
          permission == some "all")

/-! ## Helper lemmas -/

/-- The platform branching inlined in the screen component computes the
same constant as permissions.ts `getPermissionConstant`. -/
theorem permissionFor_eq (os : Platform) (t : PermissionType) :
    WebViewScreen.permissionFor os t = getPermissionConstant os t := by
  cases os <;> cases t <;> rfl

/-- The screen-local `requestPermission` issues exactly one resolver
request, for its own capability, on every path. -/
theorem screen_requestPermission_requested (os : Platform) (osRequest : OSEnv)
    (t : PermissionType) (store : GrantStore) :
    (WebViewScreen.requestPermission os osRequest t store).requested = [t] := by
  cases h : osRequest (WebViewScreen.permissionFor os t) <;>
    simp [WebViewScreen.requestPermission, h]

/-- Object-spread update preserves the key list of a store keyed exactly by
camera and microphone. -/
theorem objectSpreadSet_keys (s : GrantStore) (k : PermissionType) (v : Bool)
    (h : s.map Prod.fst = [PermissionType.camera, PermissionType.microphone]) :
    (objectSpreadSet s k v).map Prod.fst
      = [PermissionType.camera, PermissionType.microphone] := by
  cases s with
  | nil => simp at h
  | cons p s' =>
    cases s' with
    | nil => simp at h
    | cons q s'' =>
      cases s'' with
      | cons r s''' => simp at h
      | nil =>
        obtain ⟨p1, p2⟩ := p
        obtain ⟨q1, q2⟩ := q
        simp at h
        obtain ⟨h1, h2⟩ := h
        subst h1
        subst h2
        cases k <;> rfl

/-- The screen-local `requestPermission` preserves the key list of the
grant store. -/
theorem screen_requestPermission_keys (os : Platform) (osRequest : OSEnv)
    (t : PermissionType) (store : GrantStore)
    (h : store.map Prod.fst = [PermissionType.camera, PermissionType.microphone]) :
    (WebViewScreen.requestPermission os osRequest t store).store.map Prod.fst
      = [PermissionType.camera, PermissionType.microphone] := by
  cases hr : osRequest (WebViewScreen.permissionFor os t) with
  | ok s =>
      simp only [WebViewScreen.requestPermission, hr]
      exact objectSpreadSet_keys store t _ h
  | error e =>
      simp only [WebViewScreen.requestPermission, hr]
      exact h

/-- The screen-local `requestAllPermissions` preserves the key list of the
grant store. -/
theorem screen_requestAllPermissions_keys (os : Platform) (osRequest : OSEnv)
    (store : GrantStore)
    (h : store.map Prod.fst = [PermissionType.camera, PermissionType.microphone]) :
    (WebViewScreen.requestAllPermissions os osRequest store).store.map Prod.fst
      = [PermissionType.camera, PermissionType.microphone] := by
  simp only [WebViewScreen.requestAllPermissions]
  exact screen_requestPermission_keys _ _ _ _
    (screen_requestPermission_keys _ _ _ _ h)

/-- The bridge message handler preserves the key list of the grant store. -/
theorem handlePermissionRequest_keys (os : Platform) (osRequest : OSEnv)
    (msg : WebViewScreen.InboundData) (store : GrantStore)
    (h : store.map Prod.fst = [PermissionType.camera, PermissionType.microphone]) :
    (WebViewScreen.handlePermissionRequest os osRequest msg store).store.map Prod.fst
      = [PermissionType.camera, PermissionType.microphone] := by
  cases msg with
  | parseError => exact h
  | parsed type permission =>
    simp only [WebViewScreen.handlePermissionRequest]
    split_ifs <;>
      first
        | exact h
        | exact screen_requestPermission_keys _ _ _ _ h
        | exact screen_requestAllPermissions_keys _ _ _ h

/-! ## Claims -/

/-- C1: for every capability, both checkPermission and requestPermission
produce a result whose `granted` boolean is true iff its `status` equals
the granted status. -/
theorem c1_granted_iff_status_granted (os : Platform) (osCheck osRequest : OSEnv)
    (t : PermissionType) :
    (∀ r, checkPermission os osCheck t = Except.ok r →
        r.granted = (r.status == PermissionStatus.granted)) ∧
    (∀ r, requestPermission os osRequest t = Except.ok r →
        r.granted = (r.status == PermissionStatus.granted)) := by
  constructor
  · intro r h
    cases hc : osCheck (getPermissionConstant os t) with
    | error e => simp [checkPermission, hc] at h
    | ok s =>
        simp only [checkPermission, hc, Except.ok.injEq] at h
        subst h
        rfl
  · intro r h
    cases hc : osRequest (getPermissionConstant os t) with
    | error e => simp [requestPermission, hc] at h
    | ok s =>
        simp only [requestPermission, hc, Except.ok.injEq] at h
        subst h
        rfl

/-- C1 witness: a concrete run of both operations on an OS environment
that grants, instantiating both conjuncts. -/
theorem c1_witness :
    ({ granted := true, status := PermissionStatus.granted } : PermissionResult).granted
      = (({ granted := true, status := PermissionStatus.granted } : PermissionResult).status
          == PermissionStatus.granted) ∧
    ({ granted := false, status := PermissionStatus.denied } : PermissionResult).granted
      = (({ granted := false, status := PermissionStatus.denied } : PermissionResult).status
          == PermissionStatus.granted) :=
  ⟨(c1_granted_iff_status_granted Platform.ios
      (fun _ => Except.ok PermissionStatus.granted)
      (fun _ => Except.ok PermissionStatus.denied) PermissionType.camera).1
      { granted := true, status := PermissionStatus.granted } rfl,
   (c1_granted_iff_status_granted Platform.ios
      (fun _ => Except.ok PermissionStatus.granted)
      (fun _ => Except.ok PermissionStatus.denied) PermissionType.camera).2
      { granted := false, status := PermissionStatus.denied } rfl⟩

/-- C2 counterexample: the utility-module resolver `requestPermission`
(permissions.ts) has no try/catch, so a rejection of the underlying OS
call propagates to its caller — at this concrete input the operation
throws instead of returning a not-granted result, contradicting the claim
that the resolver never throws. -/
theorem c2_counterexample_util_requestPermission_propagates :
    requestPermission Platform.ios (fun _ => Except.error "boom")
      PermissionType.camera = Except.error "boom" := rfl

/-- C2 amended: the screen-local request operation
(`WebViewScreen.requestPermission`, the one wired to the bridge handler)
does satisfy the claim: when the OS call rejects it returns a total
not-granted outcome, leaves the stored grant state unchanged, and logs the
failure. -/
theorem c2_screen_requestPermission_never_throws (os : Platform)
    (osRequest : OSEnv) (t : PermissionType) (store : GrantStore) (e : JSError)
    (h : osRequest (WebViewScreen.permissionFor os t) = Except.error e) :
    WebViewScreen.requestPermission os osRequest t store =
      { store := store, granted := false, requested := [t],
        logs := ["Error requesting " ++ t.name ++ " permission: " ++ e] } := by
  simp [WebViewScreen.requestPermission, h]

/-- C2 witness: a concrete OS environment that always rejects. -/
theorem c2_witness :
    WebViewScreen.requestPermission Platform.ios (fun _ => Except.error "boom")
      PermissionType.camera WebViewScreen.initialPermissionsGranted =
      { store := WebViewScreen.initialPermissionsGranted, granted := false,
        requested := [PermissionType.camera],
        logs := ["Error requesting " ++ PermissionType.name PermissionType.camera
                  ++ " permission: " ++ "boom"] } :=
  c2_screen_requestPermission_never_throws Platform.ios
    (fun _ => Except.error "boom") PermissionType.camera
    WebViewScreen.initialPermissionsGranted "boom" rfl

/-- C3: `requestAllPermissions` of the utility module returns a record
with camera and microphone results whose `allGranted` field is true iff
both individual `granted` fields are true. -/
theorem c3_requestAll_allGranted (os : Platform) (osRequest : OSEnv)
    (r : AllPermissionsResult)
    (h : requestAllPermissions os osRequest = Except.ok r) :
    r.allGranted = (r.camera.granted && r.microphone.granted) := by
  cases hc : requestPermission os osRequest PermissionType.camera with
  | error e => simp [requestAllPermissions, hc] at h
  | ok cam =>
    cases hm : requestPermission os osRequest PermissionType.microphone with
    | error e => simp [requestAllPermissions, hc, hm] at h
    | ok mic =>
      simp only [requestAllPermissions, hc, hm, Except.ok.injEq] at h
      subst h
      rfl

/-- C3 witness: a concrete run where camera is granted and microphone is
denied; `allGranted` is the conjunction of the two `granted` fields. -/
theorem c3_witness :
    ({ camera := { granted := true, status := PermissionStatus.granted },
       microphone := { granted := false, status := PermissionStatus.denied },
       allGranted := false } : AllPermissionsResult).allGranted
      = (({ camera := { granted := true, status := PermissionStatus.granted },
            microphone := { granted := false, status := PermissionStatus.denied },
            allGranted := false } : AllPermissionsResult).camera.granted
          && ({ camera := { granted := true, status := PermissionStatus.granted },
                microphone := { granted := false, status := PermissionStatus.denied },
                allGranted := false } : AllPermissionsResult).microphone.granted) :=
  c3_requestAll_allGranted Platform.android
    (fun p => Except.ok (if p = Permission.androidCamera then
        PermissionStatus.granted else PermissionStatus.denied))
    { camera := { granted := true, status := PermissionStatus.granted },
      microphone := { granted := false, status := PermissionStatus.denied },
      allGranted := false } rfl

/-- C4: a bridge message with `permission: "all"` causes exactly one
resolver request for camera and exactly one for microphone, for any OS
environment and any store. -/
theorem c4_all_fans_out_once_each (os : Platform) (osRequest : OSEnv)
    (store : GrantStore) :
    (WebViewScreen.handlePermissionRequest os osRequest
        (WebViewScreen.InboundData.parsed (some "PERMISSION_REQUEST") (some "all"))
        store).requested.count PermissionType.camera = 1 ∧
    (WebViewScreen.handlePermissionRequest os osRequest
        (WebViewScreen.InboundData.parsed (some "PERMISSION_REQUEST") (some "all"))
        store).requested.count PermissionType.microphone = 1 := by
  have hreq : (WebViewScreen.handlePermissionRequest os osRequest
      (WebViewScreen.InboundData.parsed (some "PERMISSION_REQUEST") (some "all"))
      store).requested = [PermissionType.camera, PermissionType.microphone] := by
    have hty : ((some "PERMISSION_REQUEST" : Option String)
        == some "PERMISSION_REQUEST") = true := by decide
    have hca : ((some "all" : Option String) == some "camera") = false := by decide
    have hmi : ((some "all" : Option String) == some "microphone") = false := by decide
    have hal : ((some "all" : Option String) == some "all") = true := by decide
    simp only [WebViewScreen.handlePermissionRequest, hty, hca, hmi, hal,
      if_true, if_false, Bool.false_eq_true, WebViewScreen.requestAllPermissions]
    rw [screen_requestPermission_requested, screen_requestPermission_requested]
    rfl
  rw [hreq]
  decide

/-- C5: every inbound message that is not well formed (parse failure,
wrong or missing `type`, or unrecognized `permission`) is discarded: the
store is unchanged, no resolver request is issued, no alert is shown, and
nothing is logged (in particular no error escapes: the handler is total). -/
theorem c5_malformed_message_discarded (os : Platform) (osRequest : OSEnv)
    (msg : WebViewScreen.InboundData) (store : GrantStore)
    (h : wellFormedMessage msg = false) :
    WebViewScreen.handlePermissionRequest os osRequest msg store =
      { store := store, requested := [], alerts := [], logs := [] } := by
  cases msg with
  | parseError => rfl
  | parsed type permission =>
    simp only [wellFormedMessage, Bool.and_eq_false_imp, Bool.or_eq_false_iff] at h
    cases hty : (type == some "PERMISSION_REQUEST") with
    | false => simp [WebViewScreen.handlePermissionRequest, hty]
    | true =>
      obtain ⟨⟨hca, hmi⟩, hal⟩ := h hty
      simp [WebViewScreen.handlePermissionRequest, hty, hca, hmi, hal]

/-- C5 witness: three concrete malformed messages — a parse failure, a
wrong `type`, and an unrecognized `permission`. -/
theorem c5_witness :
    WebViewScreen.handlePermissionRequest Platform.ios
        (fun _ => Except.ok PermissionStatus.granted)
        WebViewScreen.InboundData.parseError
        WebViewScreen.initialPermissionsGranted =
      { store := WebViewScreen.initialPermissionsGranted, requested := [],
        alerts := [], logs := [] } ∧
    WebViewScreen.handlePermissionRequest Platform.ios
        (fun _ => Except.ok PermissionStatus.granted)
        (WebViewScreen.InboundData.parsed (some "OTHER") (some "camera"))
        WebViewScreen.initialPermissionsGranted =
      { store := WebViewScreen.initialPermissionsGranted, requested := [],
        alerts := [], logs := [] } ∧
    WebViewScreen.handlePermissionRequest Platform.ios
        (fun _ => Except.ok PermissionStatus.granted)
        (WebViewScreen.InboundData.parsed (some "PERMISSION_REQUEST") none)
        WebViewScreen.initialPermissionsGranted =
      { store := WebViewScreen.initialPermissionsGranted, requested := [],
        alerts := [], logs := [] } :=
  ⟨c5_malformed_message_discarded Platform.ios _ _ _ rfl,
   c5_malformed_message_discarded Platform.ios _ _ _ rfl,
   c5_malformed_message_discarded Platform.ios _ _ _ rfl⟩

/-- C6 counterexample: the claim says a back action with `canGoBack = true`
never invokes the host exit, but the handler also requires the WebView ref
to be non-null; with `canGoBack = true` and the ref null it invokes the
host exit action. -/
theorem c6_counterexample_null_ref_exits :
    WebViewScreen.onBackPress true false
      = ([WebViewScreen.BackEffect.hostExit], true) := rfl

/-- C6 amended: if `canGoBack` is true and the WebView ref is present, the
handler steps the content history back one entry and never invokes the
host exit; otherwise (in particular whenever `canGoBack` is false) it
invokes the host exit action exactly once.  Both branches consume the
event. -/
theorem c6_back_navigation (canGoBack refPresent : Bool) :
    ((canGoBack && refPresent) = true →
      WebViewScreen.onBackPress canGoBack refPresent
        = ([WebViewScreen.BackEffect.contentGoBack], true)) ∧
    ((canGoBack && refPresent) = false →
      (WebViewScreen.onBackPress canGoBack refPresent).1.count
          WebViewScreen.BackEffect.hostExit = 1 ∧
      (WebViewScreen.onBackPress canGoBack refPresent).2 = true) := by
  cases canGoBack <;> cases refPresent <;>
    exact ⟨fun h => by simp_all [WebViewScreen.onBackPress],
           fun h => by simp_all [WebViewScreen.onBackPress]⟩

/-- C6 witness: concrete back actions — content history available with a
live ref, and no content history. -/
theorem c6_witness :
    WebViewScreen.onBackPress true true
      = ([WebViewScreen.BackEffect.contentGoBack], true) ∧
    ((WebViewScreen.onBackPress false true).1.count
        WebViewScreen.BackEffect.hostExit = 1 ∧
     (WebViewScreen.onBackPress false true).2 = true) :=
  ⟨(c6_back_navigation true true).1 rfl, (c6_back_navigation false true).2 rfl⟩

/-- C8: every grant store reachable in a mounted screen lifetime (the
initial state and anything the bridge handler, the only writer, produces)
is keyed by exactly camera and microphone, in that order; and the
mount-time store maps both to the not-granted default. -/
theorem c8_grant_store_keys (s : GrantStore) (h : WebViewScreen.ReachableStore s) :
    s.map Prod.fst = [PermissionType.camera, PermissionType.microphone] ∧
    WebViewScreen.initialPermissionsGranted
      = [(PermissionType.camera, false), (PermissionType.microphone, false)] := by
  induction h with
  | mount => exact ⟨rfl, rfl⟩
  | handle store os osRequest msg hr ih =>
      exact ⟨handlePermissionRequest_keys os osRequest msg store ih.1, rfl⟩

/-- C8 witness: the mount-time store itself. -/
theorem c8_witness :
    WebViewScreen.initialPermissionsGranted.map Prod.fst
      = [PermissionType.camera, PermissionType.microphone] ∧
    WebViewScreen.initialPermissionsGranted
      = [(PermissionType.camera, false), (PermissionType.microphone, false)] :=
  c8_grant_store_keys WebViewScreen.initialPermissionsGranted
    WebViewScreen.ReachableStore.mount

/-- C7 counterexample: the claim says the remediation surface triggered on
an incomplete multi-capability grant offers exactly the choice between
dismissing and opening OS settings; but on a concrete run where camera is
granted and microphone denied, the screen-local `requestAllPermissions`
shows one alert whose only button dismisses — it offers no open-settings
choice. -/
theorem c7_counterexample_multi_alert_has_no_settings :
    ((WebViewScreen.requestAllPermissions Platform.ios
        (fun p => Except.ok (if p = Permission.iosCamera then
            PermissionStatus.granted else PermissionStatus.denied))
        WebViewScreen.initialPermissionsGranted).alerts.map
      (fun a => a.buttons.map AlertButton.action)) = [[ButtonAction.dismiss]] := rfl

/-- C7 amended: the blocked-status remediation modal
(`showPermissionDeniedAlert`) offers exactly the choice between dismissing
and opening OS settings, and via `handlePermissionResult` it is triggered
only when the resolved status is blocked — never for a plain denial.  An
incomplete multi-capability request triggers a separate notice which only
appears when not all capabilities were granted and which offers only
dismissal. -/
theorem c7_remediation_surfaces :
    (∀ t, (showPermissionDeniedAlert t).buttons.map AlertButton.action
        = [ButtonAction.dismiss, ButtonAction.openSettings]) ∧
    (∀ (os : Platform) (osRequest : OSEnv) (t : PermissionType)
        (pr : PermissionResult) (r : HandleResultOutcome),
        requestPermission os osRequest t = Except.ok pr →
        handlePermissionResult os osRequest t = Except.ok r →
        (r.alerts ≠ [] → pr.status = PermissionStatus.blocked ∧
            r.alerts = [showPermissionDeniedAlert t]) ∧
        (pr.status = PermissionStatus.denied → r.alerts = [])) ∧
    (∀ (os : Platform) (osRequest : OSEnv) (store : GrantStore),
        ((WebViewScreen.requestAllPermissions os osRequest store).alerts ≠ [] →
          (WebViewScreen.requestAllPermissions os osRequest store).value = false) ∧
        ∀ a ∈ (WebViewScreen.requestAllPermissions os osRequest store).alerts,
          a.buttons.map AlertButton.action = [ButtonAction.dismiss]) := by
  refine ⟨fun t => by cases t <;> rfl, ?_, ?_⟩
  · intro os osRequest t pr r h1 h2
    cases hc : osRequest (getPermissionConstant os t) with
    | error e => simp [requestPermission, hc] at h1
    | ok s =>
        simp only [requestPermission, hc, Except.ok.injEq] at h1
        subst h1
        simp only [handlePermissionResult, requestPermission, hc] at h2
        (cases s <;> simp_all) <;> (rw [← h2]; try simp)
  · intro os osRequest store
    simp only [WebViewScreen.requestAllPermissions]
    cases hcg : (WebViewScreen.requestPermission os osRequest
        PermissionType.camera store).granted <;>
      cases hmg : (WebViewScreen.requestPermission os osRequest
          PermissionType.microphone
          (WebViewScreen.requestPermission os osRequest
            PermissionType.camera store).store).granted <;>
      simp [hcg, hmg]

/-- C7 witness: the blocked modal on a concrete blocked run, a plain
denial showing nothing, and a concrete incomplete multi-capability run. -/
theorem c7_witness :
    (showPermissionDeniedAlert PermissionType.camera).buttons.map AlertButton.action
        = [ButtonAction.dismiss, ButtonAction.openSettings] ∧
    ({ alerts := [showPermissionDeniedAlert PermissionType.camera], value := false }
        : HandleResultOutcome).alerts
      = [showPermissionDeniedAlert PermissionType.camera] ∧
    ({ alerts := [], value := false } : HandleResultOutcome).alerts = [] :=
  ⟨c7_remediation_surfaces.1 PermissionType.camera,
   ((c7_remediation_surfaces.2.1 Platform.ios
      (fun _ => Except.ok PermissionStatus.blocked) PermissionType.camera
      { granted := false, status := PermissionStatus.blocked }
      { alerts := [showPermissionDeniedAlert PermissionType.camera], value := false }
      rfl rfl).1 (by simp)).2,
   (c7_remediation_surfaces.2.1 Platform.ios
      (fun _ => Except.ok PermissionStatus.denied) PermissionType.camera
      { granted := false, status := PermissionStatus.denied }
      { alerts := [], value := false } rfl rfl).2 rfl⟩

/-- C9: the injected getUserMedia wrapper posts exactly one camera
permission message when video is requested (none otherwise), exactly one
microphone permission message when audio is requested (none otherwise),
posts nothing else, and passes the unmodified constraints to the original
entry point, returning its result — the returned stream does not depend on
any host response. -/
theorem c9_getUserMedia_shim {α : Type}
    (originalGetUserMedia : WebViewScreen.MediaConstraints → α)
    (constraints : WebViewScreen.MediaConstraints) :
    (WebViewScreen.getUserMedia originalGetUserMedia constraints).2
        = originalGetUserMedia constraints ∧
    (WebViewScreen.getUserMedia originalGetUserMedia constraints).1.count
        { type := "PERMISSION_REQUEST", permission := "camera" }
      = (if constraints.video then 1 else 0) ∧
    (WebViewScreen.getUserMedia originalGetUserMedia constraints).1.count
        { type := "PERMISSION_REQUEST", permission := "microphone" }
      = (if constraints.audio then 1 else 0) ∧
    ∀ m ∈ (WebViewScreen.getUserMedia originalGetUserMedia constraints).1,
      m.type = "PERMISSION_REQUEST" ∧
        (m.permission = "camera" ∨ m.permission = "microphone") := by
  obtain ⟨video, audio⟩ := constraints
  refine ⟨rfl, ?_, ?_, ?_⟩ <;>
    cases video <;> cases audio <;>
      simp [WebViewScreen.getUserMedia]

/-- C10: for any OS environment (the same sequence of per-capability
resolver outcomes), whenever the utility module's concurrent
`requestAllPermissions` resolves, the boolean returned by the screen-local
sequential `requestAllPermissions` equals its `allGranted` field. -/
theorem c10_screen_all_agrees_with_util (os : Platform) (osRequest : OSEnv)
    (store : GrantStore) (r : AllPermissionsResult)
    (h : requestAllPermissions os osRequest = Except.ok r) :
    (WebViewScreen.requestAllPermissions os osRequest store).value = r.allGranted := by
  cases hc : osRequest (getPermissionConstant os PermissionType.camera) with
  | error e => simp [requestAllPermissions, requestPermission, hc] at h
  | ok sc =>
    cases hm : osRequest (getPermissionConstant os PermissionType.microphone) with
    | error e => simp [requestAllPermissions, requestPermission, hc, hm] at h
    | ok sm =>
      simp only [requestAllPermissions, requestPermission, hc, hm,
        Except.ok.injEq] at h
      subst h
      simp [WebViewScreen.requestAllPermissions, WebViewScreen.requestPermission,
        permissionFor_eq, hc, hm]

/-- C10 witness: a concrete environment granting camera and denying
microphone; both implementations decide the aggregate as false. -/
theorem c10_witness :
    (WebViewScreen.requestAllPermissions Platform.android
        (fun p => Except.ok (if p = Permission.androidCamera then
            PermissionStatus.granted else PermissionStatus.denied))
        WebViewScreen.initialPermissionsGranted).value
      = ({ camera := { granted := true, status := PermissionStatus.granted },
           microphone := { granted := false, status := PermissionStatus.denied },
           allGranted := false } : AllPermissionsResult).allGranted :=
  c10_screen_all_agrees_with_util Platform.android
    (fun p => Except.ok (if p = Permission.androidCamera then
        PermissionStatus.granted else PermissionStatus.denied))
    WebViewScreen.initialPermissionsGranted
    { camera := { granted := true, status := PermissionStatus.granted },
      microphone := { granted := false, status := PermissionStatus.denied },
      allGranted := false } rfl

end WebViewApp
